import Mathlib

/-!
Verification of the cargo-arceos build/launch orchestrator.

Shallow embedding of the configuration-overlay and command-synthesis engine:
`src/platforms/mod.rs` (Platform/Arch tables), `src/options.rs`
(ArceOSOptions: resolution, target lookup, config merge + idempotent write,
environment variables, feature checker; QEMUOptions: emulator argv synthesis),
and `src/lib.rs` (run_command and exit-code handling).

Paths, environment variables and command argument vectors are modelled as
`String`s and `List String`; the filesystem content of the configuration file
as `Option String` (absent / present with content).
-/

namespace CargoArceos

/-- The `Platform` enum from src/platforms/mod.rs. -/
inductive Platform where
  | Dummy
  | AARCH64_BSTA1000B
  | AARCH64_PHYTIUM_PI
  | AARCH64_QEMU_VIRT
  | AARCH64_RASPI4
  | LOONGARCH64_QEMU_VIRT
  | RISCV64_QEMU_VIRT
  | X86_64_PC_OSLAB
  | X86_64_QEMU_Q35
deriving DecidableEq

/-- The `Arch` enum from src/platforms/mod.rs. -/
inductive Arch where
  | Aarch64
  | Loongarch64
  | Riscv64
  | X86_64
deriving DecidableEq

/-- The strum kebab-case serialization of `Platform` (AsRefStr/Display both
yield it; `X86_64_PC_OSLAB` and `X86_64_QEMU_Q35` carry explicit
`to_string` overrides in the source). -/
def Platform.as_ref : Platform → String
  | .Dummy => "dummy"
  | .AARCH64_BSTA1000B => "aarch64-bsta1000b"
  | .AARCH64_PHYTIUM_PI => "aarch64-phytium-pi"
  | .AARCH64_QEMU_VIRT => "aarch64-qemu-virt"
  | .AARCH64_RASPI4 => "aarch64-raspi4"
  | .LOONGARCH64_QEMU_VIRT => "loongarch64-qemu-virt"
  | .RISCV64_QEMU_VIRT => "riscv64-qemu-virt"
  | .X86_64_PC_OSLAB => "x86_64-pc-oslab"
  | .X86_64_QEMU_Q35 => "x86_64-qemu-q35"

/-- The strum kebab-case serialization of `Arch` (`X86_64` carries an explicit
`to_string` override in the source). -/
def Arch.as_ref : Arch → String
  | .Aarch64 => "aarch64"
  | .Loongarch64 => "loongarch64"
  | .Riscv64 => "riscv64"
  | .X86_64 => "x86_64"

/-- The `impl From<Arch> for Platform` conversion in src/platforms/mod.rs: each architecture's
default platform. -/
def Arch.defaultPlatform : Arch → Platform
  | .Aarch64 => .AARCH64_QEMU_VIRT
  | .Loongarch64 => .LOONGARCH64_QEMU_VIRT
  | .Riscv64 => .RISCV64_QEMU_VIRT
  | .X86_64 => .X86_64_QEMU_Q35

/-- The `impl From<Platform> for Arch` conversion in src/platforms/mod.rs. -/
def Arch.ofPlatform : Platform → Arch
  | .AARCH64_BSTA1000B | .AARCH64_PHYTIUM_PI | .AARCH64_QEMU_VIRT
  | .AARCH64_RASPI4 => .Aarch64
  | .LOONGARCH64_QEMU_VIRT => .Loongarch64
  | .RISCV64_QEMU_VIRT => .Riscv64
  | .X86_64_PC_OSLAB | .X86_64_QEMU_Q35 => .X86_64
  | .Dummy => .X86_64

/-- The `ArchOrPlatform` clap group of src/options.rs (`multiple = false`:
at most one of the two fields is set by the parser). -/
structure ArchOrPlatform where
  arch : Option Arch
  platform : Option Platform
deriving DecidableEq

/-- The `impl From<ArchOrPlatform> for Platform` conversion in src/options.rs: explicit arch
maps to its default platform, explicit platform is used as-is, neither means
the dummy platform. -/
def ArchOrPlatform.toPlatform (value : ArchOrPlatform) : Platform :=
  match value.arch with
  | some arch => arch.defaultPlatform
  | none =>
    match value.platform with
    | some platform => platform
    | none => .Dummy

/-- The fields of `ArceOSOptions` (src/options.rs) relevant to the embedded
operations. `log`, `ip` and `gateway` are carried as the strings their
`Display` values contribute to the environment. -/
structure ArceOSOptions where
  arch_or_platform : ArchOrPlatform
  soft_float : Bool
  cpus : Nat
  log : String
  ip : String
  gateway : String
deriving DecidableEq

/-- Method `ArceOSOptions::platform`. -/
def ArceOSOptions.platform (o : ArceOSOptions) : Platform :=
  o.arch_or_platform.toPlatform

/-- Method `ArceOSOptions::arch`. -/
def ArceOSOptions.arch (o : ArceOSOptions) : Arch :=
  Arch.ofPlatform o.platform

/-- The match of `ArceOSOptions::target` (src/options.rs lines 117-125),
as a function of the resolved architecture and the soft-float flag. -/
def targetOf : Arch → Bool → String
  | .Aarch64, false => "aarch64-unknown-none"
  | .Aarch64, true => "aarch64-unknown-none-softfloat"
  | .Loongarch64, _ => "loongarch64-unknown-none"
  | .Riscv64, _ => "riscv64gc-unknown-none-elf"
  | .X86_64, _ => "x86_64-unknown-none"

/-- Method `ArceOSOptions::target`. -/
def ArceOSOptions.target (o : ArceOSOptions) : String :=
  targetOf o.arch o.soft_float

/-- The `RUSTFLAGS` value set by `ArceOSOptions::apply` for non-dummy
platforms (src/options.rs lines 186-193), with the format string's
placeholders filled by the binary directory display and the platform's
Display string. -/
def rustflags (binary_dir : String) (platform : Platform) : String :=
  "-C link-arg=-T" ++ binary_dir ++ "/linker_" ++ platform.as_ref ++
    ".lds -C link-arg=-no-pie -C link-arg=-znostart-stop-gc"

/-- The linker-script sub-flag of the link-flags string. -/
def linkScriptFlag (binary_dir : String) (platform : Platform) : String :=
  "-C link-arg=-T" ++ binary_dir ++ "/linker_" ++ platform.as_ref ++ ".lds"

/-- The position-independent-executable-disabling sub-flag. -/
def noPieFlag : String := "-C link-arg=-no-pie"

/-- The sub-flag preventing section garbage collection across
start/stop symbols. -/
def noStartStopGcFlag : String := "-C link-arg=-znostart-stop-gc"

/-- Environment lookup over the ordered (name, value) pairs a command
carries, first binding wins. -/
def envLookup (key : String) : List (String × String) → Option String
  | [] => none
  | (k, v) :: rest => if k = key then some v else envLookup key rest

/-- The environment variables set by `ArceOSOptions::apply`
(src/options.rs lines 173-194), in source order. `config_path` is the
canonicalized configuration-file path and `profile` the build profile,
both supplied by the caller; the `RUSTFLAGS` entry is added only for
non-dummy platforms. -/
def applyEnv (o : ArceOSOptions) (binary_dir config_path profile : String) :
    List (String × String) :=
  [("AX_CONFIG_PATH", config_path),
   ("AX_PLATFORM", o.platform.as_ref),
   ("AX_ARCH", o.arch.as_ref),
   ("AX_SMP", toString o.cpus),
   ("AX_TARGET", o.target),
   ("AX_MODE", profile),
   ("AX_LOG", o.log),
   ("AX_IP", o.ip),
   ("AX_GW", o.gateway)] ++
  (if o.platform = Platform.Dummy then []
   else [("RUSTFLAGS", rustflags binary_dir o.platform)])

lemma rustflags_decomposition (binary_dir : String) (platform : Platform) :
    rustflags binary_dir platform =
      linkScriptFlag binary_dir platform ++ " " ++ noPieFlag ++ " " ++
        noStartStopGcFlag := by
  have h : (".lds -C link-arg=-no-pie -C link-arg=-znostart-stop-gc" : String) =
      ".lds" ++ " " ++ "-C link-arg=-no-pie" ++ " " ++
        "-C link-arg=-znostart-stop-gc" := by rfl
  simp only [rustflags, linkScriptFlag, noPieFlag, noStartStopGcFlag, h,
    String.append_assoc]

lemma envLookup_applyEnv_rustflags (o : ArceOSOptions)
    (binary_dir config_path profile : String) :
    envLookup "RUSTFLAGS" (applyEnv o binary_dir config_path profile) =
      if o.platform = Platform.Dummy then none
      else some (rustflags binary_dir o.platform) := by
  by_cases h : o.platform = Platform.Dummy <;>
    simp [applyEnv, envLookup, h]

/-- Claim C1: For every non-dummy platform, `ArceOSOptions::apply` sets
`RUSTFLAGS` to exactly the three sub-flags — the linker-script argument
`-T<binary_dir>/linker_<platform>.lds`, `-no-pie`, and `-znostart-stop-gc` —
parameterized by the resolved binary directory and platform name; for the
dummy platform `RUSTFLAGS` is not set. -/
theorem C1_rustflags (o : ArceOSOptions) (binary_dir config_path profile : String) :
    envLookup "RUSTFLAGS" (applyEnv o binary_dir config_path profile) =
      (if o.platform = Platform.Dummy then none
       else some (linkScriptFlag binary_dir o.platform ++ " " ++ noPieFlag ++
         " " ++ noStartStopGcFlag)) := by
  rw [envLookup_applyEnv_rustflags]
  by_cases h : o.platform = Platform.Dummy <;>
    simp [h, rustflags_decomposition]

/-- Claim C4: Platform resolution and target lookup are pure total functions:
an explicit architecture maps to its default platform, an explicit platform
is used as-is, neither yields the dummy platform; for aarch64 the target
identifier depends on the soft-float flag (true selects the softfloat
variant), and for every other architecture it is independent of the flag. -/
theorem C4_resolution_target (a : Arch) (p : Platform) (b b' : Bool) :
    ArchOrPlatform.toPlatform ⟨some a, none⟩ = a.defaultPlatform ∧
    ArchOrPlatform.toPlatform ⟨none, some p⟩ = p ∧
    ArchOrPlatform.toPlatform ⟨none, none⟩ = Platform.Dummy ∧
    targetOf Arch.Aarch64 true = "aarch64-unknown-none-softfloat" ∧
    targetOf Arch.Aarch64 false = "aarch64-unknown-none" ∧
    (a ≠ Arch.Aarch64 → targetOf a b = targetOf a b') := by
  refine ⟨rfl, rfl, rfl, rfl, rfl, ?_⟩
  intro h
  cases a <;> first
    | exact absurd rfl h
    | cases b <;> cases b' <;> rfl

theorem C4_resolution_target_witness :
    ArchOrPlatform.toPlatform ⟨some Arch.Aarch64, none⟩ =
      Arch.Aarch64.defaultPlatform ∧
    ArchOrPlatform.toPlatform ⟨none, some Platform.AARCH64_RASPI4⟩ =
      Platform.AARCH64_RASPI4 ∧
    Arch.Riscv64 ≠ Arch.Aarch64 ∧
    targetOf Arch.Riscv64 true = targetOf Arch.Riscv64 false :=
  ⟨(C4_resolution_target Arch.Aarch64 Platform.AARCH64_RASPI4 true false).1,
   (C4_resolution_target Arch.Aarch64 Platform.AARCH64_RASPI4 true
     false).2.1,
   by decide,
   (C4_resolution_target Arch.Riscv64 Platform.AARCH64_RASPI4 true
     false).2.2.2.2.2 (by decide)⟩

/-- Claim C10: The dummy platform's architecture is x86_64: with neither an
explicit architecture nor an explicit platform the resolved architecture is
x86_64, the target identifier is "x86_64-unknown-none" independent of the
soft-float flag, and `AX_ARCH` is set to "x86_64". -/
theorem C10_dummy_arch (sf : Bool) (cpus : Nat)
    (log ip gw binary_dir config_path profile : String) :
    ArchOrPlatform.toPlatform ⟨none, none⟩ = Platform.Dummy ∧
    Arch.ofPlatform Platform.Dummy = Arch.X86_64 ∧
    (ArceOSOptions.mk ⟨none, none⟩ sf cpus log ip gw).target =
      "x86_64-unknown-none" ∧
    envLookup "AX_ARCH"
        (applyEnv (ArceOSOptions.mk ⟨none, none⟩ sf cpus log ip gw)
          binary_dir config_path profile) =
      some "x86_64" := by
  refine ⟨rfl, rfl, ?_, ?_⟩
  · cases sf <;> rfl
  · rfl

/-! ## Configuration documents

Modelled from the spec: the `Config` type, its `merge`, value update and
`dump_toml` live in the external `axconfig_gen` crate, and the compiled-in
TOML fragments (`defconfig.toml`, per-platform fragments) are not under
`src/`.  The spec describes a hierarchical key/value document organized into
named tables, merged layer by layer with later layers' keys taking
precedence over earlier layers' for identical keys, new keys added, and a
deterministic serialization. -/

/-- Modelled from the spec: a configuration document as an ordered list of
(table, key, value) entries; the designated global table is named
"global". -/
structure Config where
  entries : List (String × String × String)
deriving DecidableEq

/-- Whether the document holds an entry for (table, key). -/
def Config.hasKey (c : Config) (t k : String) : Bool :=
  c.entries.any (fun e => e.1 == t && e.2.1 == k)

/-- Modelled from the spec: writing a value under (table, key) — an existing
entry is updated in place, a new key is added. This is both the per-key
override rule of `merge` and the forced CPU-count update
(`config_at_mut(..).value_mut().update(..)` in src/options.rs lines
158-163). -/
def Config.set (c : Config) (t k v : String) : Config :=
  if c.hasKey t k then
    ⟨c.entries.map (fun e => if e.1 == t && e.2.1 == k then (t, k, v) else e)⟩
  else
    ⟨c.entries ++ [(t, k, v)]⟩

/-- Lookup of the value under (table, key). -/
def Config.lookup (c : Config) (t k : String) : Option String :=
  (c.entries.find? (fun e => e.1 == t && e.2.1 == k)).map (fun e => e.2.2)

/-- Modelled from the spec: `Config::merge` — overlay entries are folded onto
the base document, overlay keys winning, new keys added. -/
def Config.merge (base overlay : Config) : Config :=
  overlay.entries.foldl (fun acc e => acc.set e.1 e.2.1 e.2.2) base

/-- Modelled from the spec: `Config::dump_toml`, a deterministic
serialization of the document. -/
def Config.dump_toml (c : Config) : String :=
  c.entries.foldl
    (fun s e => s ++ "[" ++ e.1 ++ "] " ++ e.2.1 ++ " = " ++ e.2.2 ++ "\n") ""

/-- The `Config::GLOBAL_TABLE_NAME` constant of the configuration library. -/
def Config.globalTableName : String := "global"

/-- The merge pipeline of `ArceOSOptions::apply` (src/options.rs lines
147-163): start from the platform's base document (compiled-in defaults
merged with the platform fragment — here an arbitrary `base`), merge the
parsed override documents in command-line order, then force-write the
"smp" key of the global table to the CPU count. -/
def mergedConfig (base : Config) (overlays : List Config) (cpus : Nat) :
    Config :=
  ((overlays.foldl Config.merge base).set Config.globalTableName "smp"
    (toString cpus))

/-- The write-on-difference test of `ArceOSOptions::apply`
(src/options.rs lines 166-169): write when the file is unreadable/absent or
its content differs from the freshly serialized document. -/
def shouldWrite (old : Option String) (new : String) : Bool :=
  match old with
  | none => true
  | some o => o != new

/-- One merge+write step (src/options.rs lines 141-171) at the level of the
configuration file's content: returns whether the file was written and the
resulting on-disk content. -/
def config_write_step (old : Option String) (doc : String) : Bool × String :=
  if shouldWrite old doc then (true, doc) else (false, doc)

lemma Config.lookup_set (c : Config) (t k v : String) :
    (c.set t k v).lookup t k = some v := by
  unfold Config.set
  by_cases h : c.hasKey t k
  · simp only [h, if_pos]
    unfold Config.lookup
    obtain ⟨l⟩ := c
    induction l with
    | nil => simp [Config.hasKey] at h
    | cons e rest ih =>
      by_cases he : (e.1 == t && e.2.1 == k) = true
      · simp [List.find?, he]
      · have hrest : Config.hasKey ⟨rest⟩ t k := by
          simp only [Config.hasKey, List.any_cons, Bool.or_eq_true] at h
          rcases h with h | h
          · exact absurd h he
          · exact h
        have := ih hrest
        simpa [List.find?, he] using this
  · simp only [h, if_neg, Bool.false_eq_true, not_false_iff]
    unfold Config.lookup
    have hnone : c.entries.find? (fun e => e.1 == t && e.2.1 == k) = none := by
      rw [List.find?_eq_none]
      intro x hx hpx
      exact h (show Config.hasKey c t k from List.any_eq_true.mpr ⟨x, hx, hpx⟩)
    rw [List.find?_append, hnone]
    simp [List.find?]

/-- Claim C2: For every base document (defaults merged with any platform
fragment), every ordered list of override documents, and every CPU count,
the merged configuration's "smp" key in the global table is present and
equals the CPU count. -/
theorem C2_forced_smp (base : Config) (overlays : List Config) (cpus : Nat) :
    (mergedConfig base overlays cpus).lookup Config.globalTableName "smp" =
      some (toString cpus) := by
  unfold mergedConfig
  exact Config.lookup_set _ _ _ _

/-- Claim C3: The merge-and-write step is deterministic and idempotent: with
identical inputs the serialized document is identical, the second run does
not write because the content already matches, and in general the file is
written exactly when the on-disk content differs from the serialized
document. -/
theorem C3_idempotent_write (base : Config) (overlays : List Config)
    (cpus : Nat) (old : Option String) :
    (config_write_step old ((mergedConfig base overlays cpus).dump_toml)).2 =
        (mergedConfig base overlays cpus).dump_toml ∧
    config_write_step
        (some ((config_write_step old
          ((mergedConfig base overlays cpus).dump_toml)).2))
        ((mergedConfig base overlays cpus).dump_toml) =
      (false, (mergedConfig base overlays cpus).dump_toml) ∧
    ((config_write_step old ((mergedConfig base overlays cpus).dump_toml)).1 =
        true ↔ old ≠ some ((mergedConfig base overlays cpus).dump_toml)) := by
  set doc := (mergedConfig base overlays cpus).dump_toml
  refine ⟨?_, ?_, ?_⟩
  · unfold config_write_step
    by_cases h : shouldWrite old doc <;> simp [h]
  · have h2 : (config_write_step old doc).2 = doc := by
      unfold config_write_step
      by_cases h : shouldWrite old doc <;> simp [h]
    rw [h2]
    unfold config_write_step shouldWrite
    simp
  · unfold config_write_step shouldWrite
    cases old with
    | none => simp
    | some o => by_cases h : o = doc <;> simp [h, bne]

/-! ## Feature Consistency Checker (src/options.rs lines 24-48, 199-222) -/

/-- The static `Feature` descriptor of src/options.rs. -/
structure Feature where
  name : String
  cond : String
  packages : List String
deriving DecidableEq

/-- The `SMP` feature constant. -/
def SMP : Feature :=
  ⟨"smp", "number of CPUs > 1",
   ["axlibc", "arceos_posix_api", "axstd", "axfeat", "axhal", "axruntime",
    "axtask"]⟩

/-- The `FP_SIMD` feature constant. -/
def FP_SIMD : Feature :=
  ⟨"fp_simd", "compiling to AArch64 without soft float",
   ["axlibc", "axstd", "axfeat", "axhal"]⟩

/-- Method `ArceOSOptions::features`: the features whose condition currently holds
(multi-core when CPU count > 1; SIMD when the architecture is aarch64 and
soft float is off). -/
def ArceOSOptions.features (o : ArceOSOptions) : List Feature :=
  (if o.cpus > 1 then [SMP] else []) ++
  (if o.arch = Arch.Aarch64 ∧ o.soft_float = false then [FP_SIMD] else [])

/-- The warning message of `ArceOSOptions::check_features` with its format
placeholders filled in. -/
def featureWarning (f : Feature) (package : String) : String :=
  "feature `" ++ f.name ++ "` should be enabled for package `" ++ package ++
    "` when " ++ f.cond

/-- Method `ArceOSOptions::check_features`: the warnings emitted for a compiled
package and its declared feature set (the function only warns; it never
fails the build). -/
def ArceOSOptions.check_features (o : ArceOSOptions) (package : String)
    (declared : List String) : List String :=
  o.features.filterMap fun f =>
    if f.packages.contains package && !(declared.contains f.name) then
      some (featureWarning f package)
    else none

/-- An options bundle with an explicit aarch64 architecture, soft float off
and 2 CPUs: both static features' conditions hold. -/
def featureCheckExample : ArceOSOptions :=
  ⟨⟨some Arch.Aarch64, none⟩, false, 2, "warn", "10.0.2.15", "10.0.2.2"⟩

/-- Claim C8, counterexample: With CPU count 2 and the component "axstd" (which
is in the multi-core feature's required set), the checker does not behave as
the claim states once the SIMD feature's condition also holds: declaring
exactly the capability name "smp" still emits a warning (for `fp_simd`),
and an empty declared set emits two warnings, not one. -/
theorem C8_counterexample :
    featureCheckExample.cpus = 2 ∧
    SMP.packages.contains "axstd" = true ∧
    featureCheckExample.check_features "axstd" ["smp"] ≠ [] ∧
    (featureCheckExample.check_features "axstd" []).length ≠ 1 := by
  refine ⟨rfl, rfl, ?_, ?_⟩ <;> decide

/-- Claim C8, amended: Given CPU count 2, a component in the multi-core
feature's required set, and a configuration under which the SIMD feature's
condition does not also hold, the checker emits exactly the one multi-core
warning (naming the feature, the component and the condition) on an empty
declared set, and no warning when the declared set contains the capability
name "smp". -/
theorem C8_smp_feature_check (o : ArceOSOptions) (package : String)
    (h1 : o.cpus = 2) (h2 : SMP.packages.contains package = true)
    (h3 : ¬(o.arch = Arch.Aarch64 ∧ o.soft_float = false)) :
    o.check_features package [] = [featureWarning SMP package] ∧
    ∀ declared : List String, SMP.name ∈ declared →
      o.check_features package declared = [] := by
  have hfeat : o.features = [SMP] := by
    unfold ArceOSOptions.features
    rw [if_pos (by omega), if_neg h3, List.append_nil]
  have hm : package ∈ SMP.packages := by simpa using h2
  constructor
  · simp [ArceOSOptions.check_features, hfeat, hm]
  · intro declared hd
    simp [ArceOSOptions.check_features, hfeat]
    exact fun _ => hd

theorem C8_smp_feature_check_witness :
    (ArceOSOptions.mk ⟨none, none⟩ false 2 "warn" "10.0.2.15"
          "10.0.2.2").cpus = 2 ∧
    SMP.packages.contains "axruntime" = true ∧
    ¬((ArceOSOptions.mk ⟨none, none⟩ false 2 "warn" "10.0.2.15"
          "10.0.2.2").arch = Arch.Aarch64 ∧
      (ArceOSOptions.mk ⟨none, none⟩ false 2 "warn" "10.0.2.15"
          "10.0.2.2").soft_float = false) ∧
    (ArceOSOptions.mk ⟨none, none⟩ false 2 "warn" "10.0.2.15"
          "10.0.2.2").check_features "axruntime" [] =
      [featureWarning SMP "axruntime"] ∧
    (ArceOSOptions.mk ⟨none, none⟩ false 2 "warn" "10.0.2.15"
          "10.0.2.2").check_features "axruntime" ["smp"] = [] :=
  ⟨rfl, rfl, by decide,
   (C8_smp_feature_check _ "axruntime" rfl rfl (by decide)).1,
   (C8_smp_feature_check _ "axruntime" rfl rfl (by decide)).2 ["smp"]
     (by decide)⟩

/-! ## Exit statuses and the runner phase (src/lib.rs) -/

/-- A child process exit status: `code` is the numeric exit code, absent when
the process was terminated by a signal. -/
structure ExitStatus where
  code : Option Int
deriving DecidableEq

/-- Success of an exit status (Unix: exit code 0). -/
def ExitStatus.success (s : ExitStatus) : Bool := s.code == some 0

/-- The Display rendering of an exit status used in failure messages. -/
def ExitStatus.display (s : ExitStatus) : String :=
  match s.code with
  | some c => "exit status: " ++ toString c
  | none => "signal"

/-- Function `run_command` (src/lib.rs lines 92-111): a non-success exit status of the
spawned command becomes the error "command failed with {status}". -/
def run_command_result (s : ExitStatus) : Except String Unit :=
  if s.success then Except.ok () else
    Except.error ("command failed with " ++ s.display)

/-- Method `Cli::run` (src/lib.rs lines 36-40): an error from `execute` is printed
to stderr and `run` returns unit.  Modelled from the spec: the binary entry
point (not under src/) invokes `Cli::run` per the CLI surface, and a unit
return exits the process with code 0.  Result: (process exit code, printed
error if any). -/
def cli_run_outcome (r : Except String Unit) : Int × Option String :=
  match r with
  | .ok _ => (0, none)
  | .error e => (0, some e)

/-- The runner phase (src/lib.rs lines 49-51): `Cli::execute` dispatches the
hidden `runner` subcommand to `QEMUOptions::execute`, whose final step runs
the emulator through `run_command`; the emulator's exit status is the last
status observed. -/
def runner_phase (emulator : ExitStatus) : Int × Option String :=
  cli_run_outcome (run_command_result emulator)

/-- The build phase exit (src/lib.rs line 71): the build tool child's exit
code, or 101 when no code is available. -/
def build_phase_exit (s : ExitStatus) : Int := s.code.getD 101

/-- Claim C5, counterexample: In the runner phase the process exit code does
not mirror the emulator's exit code: an emulator exiting with code 3 yields
process exit 0 (with the failure printed), and an emulator killed by a
signal yields process exit 0, not 101.  The exit-code mirroring of
src/lib.rs line 71 belongs to the build phase and is never reached on the
runner path, which returns early at src/lib.rs line 50. -/
theorem C5_counterexample :
    (runner_phase ⟨some 3⟩).1 = 0 ∧ (0 : Int) ≠ 3 ∧
    (runner_phase ⟨none⟩).1 = 0 ∧ (0 : Int) ≠ 101 ∧
    (runner_phase ⟨some 3⟩).2 =
      some "command failed with exit status: 3" := by
  refine ⟨rfl, by decide, rfl, by decide, ?_⟩
  rfl

/-- Claim C5, amended: In the runner phase a non-zero (or codeless) emulator
exit is surfaced as a failed-command error carrying the captured exit
status — never silently swallowed — but the process exit code is 0 rather
than mirroring the emulator's code; the mirroring with the 101 fallback
applies to the build phase's child process. -/
theorem C5_runner_exit (s : ExitStatus) (h : s.success = false) :
    (runner_phase s).1 = 0 ∧
    (runner_phase s).2 = some ("command failed with " ++ s.display) ∧
    (∀ c : Int, build_phase_exit ⟨some c⟩ = c) ∧
    build_phase_exit ⟨none⟩ = 101 := by
  refine ⟨?_, ?_, fun c => rfl, rfl⟩ <;>
    simp [runner_phase, run_command_result, cli_run_outcome, h]

theorem C5_runner_exit_witness :
    (ExitStatus.mk (some 3)).success = false ∧
    ((runner_phase ⟨some 3⟩).1 = 0 ∧
      (runner_phase ⟨some 3⟩).2 =
        some ("command failed with " ++ (ExitStatus.mk (some 3)).display) ∧
      (∀ c : Int, build_phase_exit ⟨some c⟩ = c) ∧
      build_phase_exit ⟨none⟩ = 101) :=
  ⟨by decide, C5_runner_exit ⟨some 3⟩ (by decide)⟩

/-! ## Emulator command synthesis (src/options.rs lines 225-473) -/

/-- The `BusType` enum (src/options.rs); `Pci` carries the `#[default]`
attribute. -/
inductive BusType where
  | Pci
  | Mmio
deriving DecidableEq

/-- Method `BusType::vdev_suffix`. -/
def BusType.vdev_suffix : BusType → String
  | .Pci => "pci"
  | .Mmio => "device"

/-- The `NetDevType` enum (src/options.rs); `User` carries the `#[default]`
attribute. -/
inductive NetDevType where
  | User
deriving DecidableEq

/-- The fields of `QEMUOptions` (src/options.rs lines 227-263); paths are
modelled as strings. -/
structure QEMUOptions where
  smp : Option String
  mem : Option String
  bus : Option BusType
  net : Option (Option NetDevType)
  net_dump : Option String
  disk : Option String
  graphics : Bool
  accel : Bool
  debug : Bool
deriving DecidableEq

/-- Models the clap `conflicts_with = "accel"` declaration on the debug flag
(src/options.rs line 261): the argument parser rejects an invocation that
sets both flags, before `QEMUOptions::execute` ever runs. -/
def qemuFlagsAccepted (o : QEMUOptions) : Bool := !(o.debug && o.accel)

/-- The host-side compile-time/runtime facts probed by the acceleration
auto-detection (src/options.rs lines 442-455): the `cfg!(target_arch)` and
`cfg!(target_vendor = "apple")` tests and the existence of `/dev/kvm`. -/
structure Host where
  x86_64 : Bool
  aarch64 : Bool
  apple : Bool
  kvm : Bool
deriving DecidableEq

/-- The host-architecture test of the acceleration auto-detection: the
emulated architecture matches the host's native architecture. -/
def hostArchSupportsAccel (h : Host) (arch : Arch) : Bool :=
  if h.x86_64 then arch = Arch.X86_64
  else if h.aarch64 then arch = Arch.Aarch64
  else false

/-- The acceleration decision (src/options.rs lines 442-456): an explicit
request, or host/guest architectures matching and (apple host or `/dev/kvm`
present). -/
def accelEnabled (o : QEMUOptions) (h : Host) (arch : Arch) : Bool :=
  o.accel || (hostArchSupportsAccel h arch && (h.apple || h.kvm))

/-- The static machine-type / default-memory table of
`QEMUOptions::execute` (src/options.rs lines 348-355); `none` is the
"unsupported platform" bail. -/
def machineMem : Platform → Option (String × Option String)
  | .AARCH64_QEMU_VIRT => some ("virt", none)
  | .AARCH64_RASPI4 => some ("raspi4b", some "2G")
  | .LOONGARCH64_QEMU_VIRT => some ("virt", some "1G")
  | .RISCV64_QEMU_VIRT => some ("virt", none)
  | .X86_64_QEMU_Q35 => some ("q35", none)
  | _ => none

/-- The cpu-model argument pair `-cpu cortex-a72` pair added for aarch64
(src/options.rs lines 390-392). -/
def cpuArgs (arch : Arch) : List String :=
  if arch = Arch.Aarch64 then ["-cpu", "cortex-a72"] else []

/-- The memory argument pair (src/options.rs lines 394-396): the explicit
`--mem` value, else the platform default, else nothing. -/
def memArgs (o : QEMUOptions) (memDefault : Option String) : List String :=
  match Option.or o.mem memDefault with
  | some m => ["-m", m]
  | none => []

/-- The netdev backend argument (src/options.rs lines 405-409). -/
def netdevBackendArg : NetDevType → String
  | .User => "user,id=net0,hostfwd=tcp::5555-:5555,hostfwd=udp::5555-:5555"

/-- The network device arguments (src/options.rs lines 400-410). -/
def netArgs (o : QEMUOptions) (suffix : String) : List String :=
  match o.net with
  | none => []
  | some n =>
    ["-device", "virtio-net-" ++ (suffix ++ ",netdev=net0"), "-netdev",
     netdevBackendArg (n.getD NetDevType.User)]

/-- The packet-dump filter arguments (src/options.rs lines 412-417). -/
def dumpArgs (o : QEMUOptions) : List String :=
  match o.net_dump with
  | none => []
  | some dump =>
    ["-object", "filter-dump,id=dump0,netdev=net0,file=" ++ dump]

/-- The disk device/drive arguments (src/options.rs lines 419-428). -/
def diskArgs (o : QEMUOptions) (suffix : String) : List String :=
  match o.disk with
  | none => []
  | some disk =>
    ["-device", "virtio-blk-" ++ (suffix ++ ",drive=disk0"), "-drive",
     "id=disk0,if=none,format=raw,file=" ++ disk]

/-- The graphics-or-headless arguments (src/options.rs lines 430-437). -/
def gfxArgs (o : QEMUOptions) (suffix : String) : List String :=
  if o.graphics then
    ["-device", "virtio-gpu-" ++ suffix, "-vga", "none", "-serial",
     "mon:stdio"]
  else ["-nographic"]

/-- The debug-stub or acceleration arguments
(src/options.rs lines 439-469). -/
def dbgArgs (o : QEMUOptions) (h : Host) (arch : Arch) : List String :=
  if o.debug then ["-s", "-S"]
  else if accelEnabled o h arch then
    ["-cpu", "host", "-accel", if h.apple then "hvf" else "kvm"]
  else []

/-- The emulator argument vector assembled by `QEMUOptions::execute` for a
resolved machine type, default memory and architecture, in source order:
kernel, machine, CPU count (`AX_SMP` recorded at build time unless
overridden), CPU model, memory, network, dump filter, disk, graphics,
debug/acceleration. -/
def qemuArgvBody (o : QEMUOptions) (arch : Arch) (machine : String)
    (memDefault : Option String) (kernel axSmp : String) (h : Host) :
    List String :=
  ["-kernel", kernel, "-machine", machine, "-smp", o.smp.getD axSmp] ++
    cpuArgs arch ++
    memArgs o memDefault ++
    netArgs o (o.bus.getD BusType.Pci).vdev_suffix ++
    dumpArgs o ++
    diskArgs o (o.bus.getD BusType.Pci).vdev_suffix ++
    gfxArgs o (o.bus.getD BusType.Pci).vdev_suffix ++
    dbgArgs o h arch

/-- Method `QEMUOptions::execute` at the level of the emulator argument vector:
platforms outside the static table are the "unsupported platform" error;
`kernel` is the (possibly objcopy-converted) kernel image path and `axSmp`
the CPU count recorded at build time in `AX_SMP`. -/
def qemuArgv (o : QEMUOptions) (platform : Platform) (kernel axSmp : String)
    (h : Host) : Except String (List String) :=
  match machineMem platform with
  | none => .error ("unsupported platform: " ++ platform.as_ref)
  | some (machine, memDefault) =>
    .ok (qemuArgvBody o (Arch.ofPlatform platform) machine memDefault kernel
      axSmp h)

lemma append_ne_of_length_lt (a x b : String) (hb : b.length < a.length) :
    a ++ x ≠ b := by
  intro he
  have hl := congrArg String.length he
  rw [String.length_append] at hl
  omega

lemma length_le_of_prefix_append (a x flag : String) (h : flag = a ++ x)
    (ha : 11 ≤ a.length) : 11 ≤ flag.length := by
  subst h
  rw [String.length_append]
  omega

lemma mem_cpuArgs {arch : Arch} {flag : String} (h : flag ∈ cpuArgs arch) :
    flag = "-cpu" ∨ flag = "cortex-a72" := by
  unfold cpuArgs at h
  by_cases ha : arch = Arch.Aarch64 <;> simp [ha] at h
  exact h

lemma mem_memArgs {o : QEMUOptions} {memDefault : Option String}
    {flag : String} (h : flag ∈ memArgs o memDefault) :
    ∃ m, Option.or o.mem memDefault = some m ∧ (flag = "-m" ∨ flag = m) := by
  unfold memArgs at h
  cases hm : Option.or o.mem memDefault with
  | none => rw [hm] at h; simp at h
  | some m =>
    rw [hm] at h
    simp at h
    exact ⟨m, rfl, h⟩

lemma mem_netArgs {o : QEMUOptions} {suffix flag : String}
    (h : flag ∈ netArgs o suffix) :
    flag = "-device" ∨ flag = "-netdev" ∨ 11 ≤ flag.length := by
  unfold netArgs at h
  cases hn : o.net with
  | none => rw [hn] at h; simp at h
  | some n =>
    rw [hn] at h
    simp at h
    rcases h with h | h | h | h
    · exact Or.inl h
    · refine Or.inr (Or.inr (length_le_of_prefix_append "virtio-net-" _ _ h ?_))
      decide
    · exact Or.inr (Or.inl h)
    · subst h
      cases hd : n.getD NetDevType.User
      decide

lemma mem_dumpArgs {o : QEMUOptions} {flag : String}
    (h : flag ∈ dumpArgs o) :
    flag = "-object" ∨ 11 ≤ flag.length := by
  unfold dumpArgs at h
  cases hn : o.net_dump with
  | none => rw [hn] at h; simp at h
  | some dump =>
    rw [hn] at h
    simp at h
    rcases h with h | h
    · exact Or.inl h
    · refine Or.inr
        (length_le_of_prefix_append "filter-dump,id=dump0,netdev=net0,file="
          _ _ h ?_)
      decide

lemma mem_diskArgs {o : QEMUOptions} {suffix flag : String}
    (h : flag ∈ diskArgs o suffix) :
    flag = "-device" ∨ flag = "-drive" ∨ 11 ≤ flag.length := by
  unfold diskArgs at h
  cases hn : o.disk with
  | none => rw [hn] at h; simp at h
  | some disk =>
    rw [hn] at h
    simp at h
    rcases h with h | h | h | h
    · exact Or.inl h
    · refine Or.inr (Or.inr (length_le_of_prefix_append "virtio-blk-" _ _ h ?_))
      decide
    · exact Or.inr (Or.inl h)
    · refine Or.inr (Or.inr
        (length_le_of_prefix_append "id=disk0,if=none,format=raw,file=" _ _ h
          ?_))
      decide

lemma mem_gfxArgs {o : QEMUOptions} {suffix flag : String}
    (h : flag ∈ gfxArgs o suffix) :
    (o.graphics = false ∧ flag = "-nographic") ∨
    (o.graphics = true ∧
      flag ∈ (["-vga", "none", "-serial", "mon:stdio"] : List String)) ∨
    flag = "-device" ∨ 11 ≤ flag.length := by
  unfold gfxArgs at h
  cases hg : o.graphics with
  | false => rw [hg] at h; simp at h; exact Or.inl ⟨rfl, h⟩
  | true =>
    rw [hg] at h
    simp at h
    rcases h with h | h | h | h | h | h
    · exact Or.inr (Or.inr (Or.inl h))
    · exact Or.inr (Or.inr (Or.inr
        (length_le_of_prefix_append "virtio-gpu-" _ _ h (by decide))))
    · exact Or.inr (Or.inl ⟨rfl, by simp [h]⟩)
    · exact Or.inr (Or.inl ⟨rfl, by simp [h]⟩)
    · exact Or.inr (Or.inl ⟨rfl, by simp [h]⟩)
    · exact Or.inr (Or.inl ⟨rfl, by simp [h]⟩)

lemma mem_dbgArgs {o : QEMUOptions} {h : Host} {arch : Arch} {flag : String}
    (hm : flag ∈ dbgArgs o h arch) :
    (o.debug = true ∧ flag ∈ (["-s", "-S"] : List String)) ∨
    (o.debug = false ∧
      flag ∈ (["-cpu", "host", "-accel", "hvf", "kvm"] : List String)) := by
  unfold dbgArgs at hm
  cases hd : o.debug with
  | true =>
    rw [hd] at hm
    simp at hm
    refine Or.inl ⟨rfl, ?_⟩
    rcases hm with h1 | h1 <;> simp [h1]
  | false =>
    rw [hd] at hm
    simp only [Bool.false_eq_true, if_false] at hm
    by_cases hacc : accelEnabled o h arch = true
    · rw [if_pos hacc] at hm
      simp at hm
      refine Or.inr ⟨rfl, ?_⟩
      rcases hm with h1 | h1 | h1 | h1
      · simp [h1]
      · simp [h1]
      · simp [h1]
      · cases hap : h.apple <;> rw [hap] at h1 <;> simp at h1 <;> simp [h1]
    · rw [if_neg hacc] at hm
      simp at hm

/-- Every element of the synthesized argument vector is the kernel path, the
CPU-count value, the machine name, a memory argument, a long
(device/backend) string, one of the graphics-mode-guarded or
debug-mode-guarded literals, or one of the fixed short literals. -/
lemma mem_qemuArgvBody {o : QEMUOptions} {arch : Arch} {machine : String}
    {memDefault : Option String} {kernel axSmp : String} {host : Host}
    {flag : String}
    (h : flag ∈ qemuArgvBody o arch machine memDefault kernel axSmp host) :
    flag = kernel ∨ flag = o.smp.getD axSmp ∨ flag = machine ∨
    (∃ m, Option.or o.mem memDefault = some m ∧ (flag = "-m" ∨ flag = m)) ∨
    11 ≤ flag.length ∨
    (o.graphics = false ∧ flag = "-nographic") ∨
    (o.graphics = true ∧
      flag ∈ (["-vga", "none", "-serial", "mon:stdio"] : List String)) ∨
    (o.debug = true ∧ flag ∈ (["-s", "-S"] : List String)) ∨
    (o.debug = false ∧
      flag ∈ (["-cpu", "host", "-accel", "hvf", "kvm"] : List String)) ∨
    flag ∈ (["-kernel", "-machine", "-smp", "-cpu", "cortex-a72", "-device",
      "-netdev", "-object", "-drive"] : List String) := by
  unfold qemuArgvBody at h
  simp only [List.mem_append] at h
  rcases h with ((((((h | h) | h) | h) | h) | h) | h) | h
  · simp at h
    rcases h with h | h | h | h | h | h
    · exact Or.inr (Or.inr (Or.inr (Or.inr (Or.inr (Or.inr (Or.inr (Or.inr
        (Or.inr (by simp [h])))))))))
    · exact Or.inl h
    · exact Or.inr (Or.inr (Or.inr (Or.inr (Or.inr (Or.inr (Or.inr (Or.inr
        (Or.inr (by simp [h])))))))))
    · exact Or.inr (Or.inr (Or.inl h))
    · exact Or.inr (Or.inr (Or.inr (Or.inr (Or.inr (Or.inr (Or.inr (Or.inr
        (Or.inr (by simp [h])))))))))
    · exact Or.inr (Or.inl h)
  · rcases mem_cpuArgs h with h | h <;>
      exact Or.inr (Or.inr (Or.inr (Or.inr (Or.inr (Or.inr (Or.inr (Or.inr
        (Or.inr (by simp [h])))))))))
  · exact Or.inr (Or.inr (Or.inr (Or.inl (mem_memArgs h))))
  · rcases mem_netArgs h with h | h | h <;>
      first
        | exact Or.inr (Or.inr (Or.inr (Or.inr (Or.inl h))))
        | exact Or.inr (Or.inr (Or.inr (Or.inr (Or.inr (Or.inr (Or.inr (Or.inr
            (Or.inr (by simp [h])))))))))
  · rcases mem_dumpArgs h with h | h <;>
      first
        | exact Or.inr (Or.inr (Or.inr (Or.inr (Or.inl h))))
        | exact Or.inr (Or.inr (Or.inr (Or.inr (Or.inr (Or.inr (Or.inr (Or.inr
            (Or.inr (by simp [h])))))))))
  · rcases mem_diskArgs h with h | h | h <;>
      first
        | exact Or.inr (Or.inr (Or.inr (Or.inr (Or.inl h))))
        | exact Or.inr (Or.inr (Or.inr (Or.inr (Or.inr (Or.inr (Or.inr (Or.inr
            (Or.inr (by simp [h])))))))))
  · rcases mem_gfxArgs h with h | h | h | h
    · exact Or.inr (Or.inr (Or.inr (Or.inr (Or.inr (Or.inl h)))))
    · exact Or.inr (Or.inr (Or.inr (Or.inr (Or.inr (Or.inr (Or.inl h))))))
    · exact Or.inr (Or.inr (Or.inr (Or.inr (Or.inr (Or.inr (Or.inr (Or.inr
        (Or.inr (by simp [h])))))))))
    · exact Or.inr (Or.inr (Or.inr (Or.inr (Or.inl h))))
  · rcases mem_dbgArgs h with h | h
    · exact Or.inr (Or.inr (Or.inr (Or.inr (Or.inr (Or.inr (Or.inr
        (Or.inl h)))))))
    · exact Or.inr (Or.inr (Or.inr (Or.inr (Or.inr (Or.inr (Or.inr (Or.inr
        (Or.inl h))))))))

lemma machineMem_values {p : Platform} {machine : String} {d : Option String}
    (h : machineMem p = some (machine, d)) :
    (machine = "virt" ∨ machine = "raspi4b" ∨ machine = "q35") ∧
    (d = none ∨ d = some "2G" ∨ d = some "1G") := by
  cases p <;> simp [machineMem] at h <;> rcases h with ⟨rfl, rfl⟩ <;> simp

/-- Claim C6: Emulator synthesis with `graphics=true` never produces the
headless flag `-nographic` and always produces the serial-redirect-to-
terminal arguments `-serial mon:stdio`; with `graphics=false` it produces
`-nographic`.  (The free-form kernel path, CPU-count and memory strings are
assumed not to collide with the literal headless flag.) -/
theorem C6_graphics (o : QEMUOptions) (platform : Platform)
    (kernel axSmp : String) (host : Host) (args : List String)
    (hok : qemuArgv o platform kernel axSmp host = Except.ok args)
    (hkernel : kernel ≠ "-nographic")
    (hsmp : o.smp.getD axSmp ≠ "-nographic")
    (hmem : o.mem ≠ some "-nographic") :
    (o.graphics = true →
      "-nographic" ∉ args ∧ List.IsInfix ["-serial", "mon:stdio"] args) ∧
    (o.graphics = false → "-nographic" ∈ args) := by
  cases hmp : machineMem platform with
  | none =>
    unfold qemuArgv at hok
    rw [hmp] at hok
    simp at hok
  | some pr =>
    obtain ⟨machine, memDefault⟩ := pr
    unfold qemuArgv at hok
    rw [hmp] at hok
    simp at hok
    subst hok
    constructor
    · intro hg
      constructor
      · intro hcontra
        rcases mem_qemuArgvBody hcontra with h | h | h | ⟨m, hor, h | h⟩ | h |
          ⟨hgf, _⟩ | ⟨_, h⟩ | ⟨_, h⟩ | ⟨_, h⟩ | h
        · exact hkernel h.symm
        · exact hsmp h.symm
        · rcases (machineMem_values hmp).1 with h1 | h1 | h1 <;>
            rw [h1] at h <;> exact absurd h (by decide)
        · exact absurd h (by decide)
        · cases hm2 : o.mem with
          | some x =>
            rw [hm2] at hor
            simp [Option.or] at hor
            exact hmem (by rw [hm2, hor, ← h])
          | none =>
            rw [hm2] at hor
            simp [Option.or] at hor
            rcases (machineMem_values hmp).2 with h2 | h2 | h2 <;>
              rw [h2] at hor <;> rw [← h] at hor <;>
              exact absurd hor (by decide)
        · exact absurd h (by decide)
        · rw [hg] at hgf
          exact absurd hgf (by decide)
        · exact absurd h (by decide)
        · exact absurd h (by decide)
        · exact absurd h (by decide)
        · exact absurd h (by decide)
      · refine ⟨["-kernel", kernel, "-machine", machine, "-smp",
          o.smp.getD axSmp] ++ cpuArgs (Arch.ofPlatform platform) ++
          memArgs o memDefault ++
          netArgs o ((o.bus.getD BusType.Pci).vdev_suffix) ++ dumpArgs o ++
          diskArgs o ((o.bus.getD BusType.Pci).vdev_suffix) ++
          ["-device", "virtio-gpu-" ++ (o.bus.getD BusType.Pci).vdev_suffix,
            "-vga", "none"],
          dbgArgs o host (Arch.ofPlatform platform), ?_⟩
        simp [qemuArgvBody, gfxArgs, hg, List.append_assoc]
    · intro hg
      simp [qemuArgvBody, gfxArgs, hg, List.mem_append]

/-- The argument vector of the C6 witness scenario: riscv64 qemu-virt with
graphics on and everything else defaulted. -/
def qemuGraphicsExampleArgs : List String :=
  ["-kernel", "app.bin", "-machine", "virt", "-smp", "1", "-device",
   "virtio-gpu-pci", "-vga", "none", "-serial", "mon:stdio"]

theorem C6_graphics_witness :
    qemuArgv ⟨none, none, none, none, none, none, true, false, false⟩
        Platform.RISCV64_QEMU_VIRT "app.bin" "1"
        ⟨false, false, false, false⟩ =
      Except.ok qemuGraphicsExampleArgs ∧
    "-nographic" ∉ qemuGraphicsExampleArgs ∧
    List.IsInfix ["-serial", "mon:stdio"] qemuGraphicsExampleArgs := by
  have h := C6_graphics
    ⟨none, none, none, none, none, none, true, false, false⟩
    Platform.RISCV64_QEMU_VIRT "app.bin" "1" ⟨false, false, false, false⟩
    qemuGraphicsExampleArgs rfl (by decide) (by decide) (by decide)
  exact ⟨rfl, (h.1 rfl).1, (h.1 rfl).2⟩

/-- Claim C7: The emulator memory argument follows the precedence: an explicit
RunOptions memory value is used, else the platform's static default when
the table defines one, else the memory argument is omitted entirely.  (The
free-form kernel path and CPU-count strings are assumed not to collide
with the literal `-m` flag.) -/
theorem C7_memory_precedence (o : QEMUOptions) (platform : Platform)
    (kernel axSmp : String) (host : Host) (args : List String)
    (hok : qemuArgv o platform kernel axSmp host = Except.ok args)
    (hkernel : kernel ≠ "-m") (hsmp : o.smp.getD axSmp ≠ "-m") :
    (∀ m, o.mem = some m → List.IsInfix ["-m", m] args) ∧
    (∀ machine d, o.mem = none →
      machineMem platform = some (machine, some d) →
      List.IsInfix ["-m", d] args) ∧
    (∀ machine, o.mem = none → machineMem platform = some (machine, none) →
      "-m" ∉ args) := by
  cases hmp : machineMem platform with
  | none =>
    unfold qemuArgv at hok
    rw [hmp] at hok
    simp at hok
  | some pr =>
    obtain ⟨machine, memDefault⟩ := pr
    unfold qemuArgv at hok
    rw [hmp] at hok
    simp at hok
    subst hok
    refine ⟨?_, ?_, ?_⟩
    · intro m hm
      have hmem2 : memArgs o memDefault = ["-m", m] := by
        unfold memArgs
        rw [hm]
        rfl
      refine ⟨["-kernel", kernel, "-machine", machine, "-smp",
        o.smp.getD axSmp] ++ cpuArgs (Arch.ofPlatform platform),
        netArgs o ((o.bus.getD BusType.Pci).vdev_suffix) ++ dumpArgs o ++
          diskArgs o ((o.bus.getD BusType.Pci).vdev_suffix) ++
          gfxArgs o ((o.bus.getD BusType.Pci).vdev_suffix) ++
          dbgArgs o host (Arch.ofPlatform platform), ?_⟩
      simp [qemuArgvBody, hmem2, List.append_assoc]
    · intro machine' d hm hmp2
      injection hmp2 with hmp2
      injection hmp2 with hmach hdef
      subst hdef
      have hmem2 : memArgs o (some d) = ["-m", d] := by
        unfold memArgs
        rw [hm]
        rfl
      refine ⟨["-kernel", kernel, "-machine", machine, "-smp",
        o.smp.getD axSmp] ++ cpuArgs (Arch.ofPlatform platform),
        netArgs o ((o.bus.getD BusType.Pci).vdev_suffix) ++ dumpArgs o ++
          diskArgs o ((o.bus.getD BusType.Pci).vdev_suffix) ++
          gfxArgs o ((o.bus.getD BusType.Pci).vdev_suffix) ++
          dbgArgs o host (Arch.ofPlatform platform), ?_⟩
      simp [qemuArgvBody, hmem2, List.append_assoc]
    · intro machine' hm hmp2
      injection hmp2 with hmp2
      injection hmp2 with hmach hdef
      subst hdef
      intro hcontra
      rcases mem_qemuArgvBody hcontra with h | h | h | ⟨m, hor, h | h⟩ | h |
        ⟨_, h⟩ | ⟨_, h⟩ | ⟨_, h⟩ | ⟨_, h⟩ | h
      · exact hkernel h.symm
      · exact hsmp h.symm
      · rcases (machineMem_values hmp).1 with h1 | h1 | h1 <;>
          rw [h1] at h <;> exact absurd h (by decide)
      · rw [hm] at hor
        simp [Option.or] at hor
      · rw [hm] at hor
        simp [Option.or] at hor
      · exact absurd h (by decide)
      · exact absurd h (by decide)
      · exact absurd h (by decide)
      · exact absurd h (by decide)
      · exact absurd h (by decide)
      · exact absurd h (by decide)

/-- The argument vector of the C7 witness's default-memory scenario: an
aarch64 raspi4 run with no explicit memory, picking up the board's fixed
"2G" default. -/
def qemuRaspiDefaultArgs : List String :=
  ["-kernel", "app.bin", "-machine", "raspi4b", "-smp", "1", "-cpu",
   "cortex-a72", "-m", "2G", "-nographic"]

/-- The argument vector of the C7 witness's override scenario: the same run
with an explicit `--mem 4G` replacing the board default. -/
def qemuRaspiOverrideArgs : List String :=
  ["-kernel", "app.bin", "-machine", "raspi4b", "-smp", "1", "-cpu",
   "cortex-a72", "-m", "4G", "-nographic"]

theorem C7_memory_precedence_witness :
    qemuArgv ⟨none, none, none, none, none, none, false, false, false⟩
        Platform.AARCH64_RASPI4 "app.bin" "1" ⟨false, false, false, false⟩ =
      Except.ok qemuRaspiDefaultArgs ∧
    List.IsInfix ["-m", "2G"] qemuRaspiDefaultArgs ∧
    qemuArgv ⟨none, some "4G", none, none, none, none, false, false, false⟩
        Platform.AARCH64_RASPI4 "app.bin" "1" ⟨false, false, false, false⟩ =
      Except.ok qemuRaspiOverrideArgs ∧
    List.IsInfix ["-m", "4G"] qemuRaspiOverrideArgs := by
  have h1 := C7_memory_precedence
    ⟨none, none, none, none, none, none, false, false, false⟩
    Platform.AARCH64_RASPI4 "app.bin" "1" ⟨false, false, false, false⟩
    qemuRaspiDefaultArgs rfl (by decide) (by decide)
  have h2 := C7_memory_precedence
    ⟨none, some "4G", none, none, none, none, false, false, false⟩
    Platform.AARCH64_RASPI4 "app.bin" "1" ⟨false, false, false, false⟩
    qemuRaspiOverrideArgs rfl (by decide) (by decide)
  exact ⟨rfl, h1.2.1 "raspi4b" "2G" rfl rfl, rfl, h2.1 "4G" rfl⟩

/-- Claim C9: Debug-stub mode and hardware acceleration are mutually
exclusive: the clap `conflicts_with` declaration rejects `debug` together
with `accel` before synthesis runs, and under debug mode the synthesized
argument vector contains the halt-at-startup (`-S`) and remote-debug-stub
(`-s`) flags and never the `-accel` accelerator flag.  (The free-form
kernel path, CPU-count and memory strings are assumed not to collide with
the literal accelerator flag.) -/
theorem C9_debug_excludes_accel (o : QEMUOptions) (platform : Platform)
    (kernel axSmp : String) (host : Host) (args : List String)
    (hok : qemuArgv o platform kernel axSmp host = Except.ok args)
    (hd : o.debug = true)
    (hkernel : kernel ≠ "-accel") (hsmp : o.smp.getD axSmp ≠ "-accel")
    (hmem : o.mem ≠ some "-accel") :
    (∀ o' : QEMUOptions, o'.debug = true → o'.accel = true →
      qemuFlagsAccepted o' = false) ∧
    "-s" ∈ args ∧ "-S" ∈ args ∧ "-accel" ∉ args := by
  cases hmp : machineMem platform with
  | none =>
    unfold qemuArgv at hok
    rw [hmp] at hok
    simp at hok
  | some pr =>
    obtain ⟨machine, memDefault⟩ := pr
    unfold qemuArgv at hok
    rw [hmp] at hok
    simp at hok
    subst hok
    refine ⟨?_, ?_, ?_, ?_⟩
    · intro o' h1 h2
      simp [qemuFlagsAccepted, h1, h2]
    · simp [qemuArgvBody, dbgArgs, hd, List.mem_append]
    · simp [qemuArgvBody, dbgArgs, hd, List.mem_append]
    · intro hcontra
      rcases mem_qemuArgvBody hcontra with h | h | h | ⟨m, hor, h | h⟩ | h |
        ⟨_, h⟩ | ⟨_, h⟩ | ⟨_, h⟩ | ⟨hdf, _⟩ | h
      · exact hkernel h.symm
      · exact hsmp h.symm
      · rcases (machineMem_values hmp).1 with h1 | h1 | h1 <;>
          rw [h1] at h <;> exact absurd h (by decide)
      · exact absurd h (by decide)
      · cases hm2 : o.mem with
        | some x =>
          rw [hm2] at hor
          simp [Option.or] at hor
          exact hmem (by rw [hm2, hor, ← h])
        | none =>
          rw [hm2] at hor
          simp [Option.or] at hor
          rcases (machineMem_values hmp).2 with h2 | h2 | h2 <;>
            rw [h2] at hor <;> rw [← h] at hor <;>
            exact absurd hor (by decide)
      · exact absurd h (by decide)
      · exact absurd h (by decide)
      · exact absurd h (by decide)
      · exact absurd h (by decide)
      · rw [hd] at hdf
        exact absurd hdf (by decide)
      · exact absurd h (by decide)

/-- The argument vector of the C9 witness scenario: an x86_64 q35 debug run
on a kvm-capable x86_64 host — acceleration is still suppressed. -/
def qemuDebugExampleArgs : List String :=
  ["-kernel", "app.bin", "-machine", "q35", "-smp", "1", "-nographic", "-s",
   "-S"]

theorem C9_debug_excludes_accel_witness :
    qemuArgv ⟨none, none, none, none, none, none, false, false, true⟩
        Platform.X86_64_QEMU_Q35 "app.bin" "1" ⟨true, false, false, true⟩ =
      Except.ok qemuDebugExampleArgs ∧
    qemuFlagsAccepted ⟨none, none, none, none, none, none, false, true,
      true⟩ = false ∧
    "-s" ∈ qemuDebugExampleArgs ∧ "-S" ∈ qemuDebugExampleArgs ∧
    "-accel" ∉ qemuDebugExampleArgs := by
  have h := C9_debug_excludes_accel
    ⟨none, none, none, none, none, none, false, false, true⟩
    Platform.X86_64_QEMU_Q35 "app.bin" "1" ⟨true, false, false, true⟩
    qemuDebugExampleArgs rfl rfl (by decide) (by decide) (by decide)
  exact ⟨rfl, h.1 _ rfl rfl, h.2.1, h.2.2.1, h.2.2.2⟩

end CargoArceos
